import Mathlib

/-!
Verification development for the template-driven field-extraction engine of the
OCR-intern repository.  The Python sources under `src/` are shallowly embedded:
strings become `String`/`List Char`, floats become `ℚ`, dictionaries become
association lists, and fallible code returns `Option`/`Except`.  Python regular
expression calls are embedded as explicit backtracking matchers that follow the
leftmost-start, greedy-with-backtracking semantics of `re.search` for the three
concrete patterns the validators use.

Unicode caveats, stated once: Python's `str.isdigit` accepts every Unicode
decimal digit, `str.upper`/`str.lower`/`str.title` act on all cased Unicode
letters, and `\w` covers Unicode word characters.  The embedding models these
on the character ranges that actually occur in this pipeline: ASCII, the
Latin-1 letters used by the French gazetteer, and the Arabic-Indic digits
U+0660..U+0669.
-/

/-- ASCII or Arabic-Indic decimal digit (models Python `str.isdigit` and the
regex class `\d` on the ranges used by this repository). -/
def pyIsDigit (c : Char) : Bool :=
  if ('0' ≤ c ∧ c ≤ '9') ∨ ('٠' ≤ c ∧ c ≤ '٩') then true else false

/-- ASCII whitespace (models Python `\s` / `str.strip` on the inputs in scope). -/
def pyIsSpace (c : Char) : Bool :=
  if c = ' ' ∨ c = '\t' ∨ c = '\n' ∨ c = '\x0d' ∨ c = '\x0c' ∨ c = '\x0b' then true else false

/-- The regex character class `[A-Z]`. -/
def pyIsUpperAZ (c : Char) : Bool :=
  if 'A' ≤ c ∧ c ≤ 'Z' then true else false

/-- One character of `str.maketrans("٠١٢٣٤٥٦٧٨٩", "0123456789")`
(validators.py line 5). -/
def ar2enChar (c : Char) : Char :=
  if c = '٠' then '0' else if c = '١' then '1' else if c = '٢' then '2'
  else if c = '٣' then '3' else if c = '٤' then '4' else if c = '٥' then '5'
  else if c = '٦' then '6' else if c = '٧' then '7' else if c = '٨' then '8'
  else if c = '٩' then '9' else c

/-- `ar2en_digits` (validators.py line 6): transliterate Arabic-Indic digits. -/
def ar2en_digits (s : String) : String := String.mk (s.data.map ar2enChar)

/-- Python `str.upper`, modelled on ASCII `a-z` and the Latin-1 letters
`à`..`þ` (except `÷`); every other character is returned unchanged. -/
def pyUpperChar (c : Char) : Char :=
  if (0x61 ≤ c.toNat ∧ c.toNat ≤ 0x7A) ∨
     ((0xE0 ≤ c.toNat ∧ c.toNat ≤ 0xFE) ∧ c.toNat ≠ 0xF7) then
    Char.ofNat (c.toNat - 0x20)
  else c

/-- Python `str.lower`, modelled on ASCII `A-Z` and the Latin-1 letters
`À`..`Þ` (except `×`). -/
def pyLowerChar (c : Char) : Char :=
  if (0x41 ≤ c.toNat ∧ c.toNat ≤ 0x5A) ∨
     ((0xC0 ≤ c.toNat ∧ c.toNat ≤ 0xDE) ∧ c.toNat ≠ 0xD7) then
    Char.ofNat (c.toNat + 0x20)
  else c

def pyUpper (s : String) : String := String.mk (s.data.map pyUpperChar)

def pyLower (s : String) : String := String.mk (s.data.map pyLowerChar)

/-- A cased letter, for `str.title` (ASCII and Latin-1 letters). -/
def pyIsAlphaChar (c : Char) : Bool :=
  if (0x41 ≤ c.toNat ∧ c.toNat ≤ 0x5A) ∨ (0x61 ≤ c.toNat ∧ c.toNat ≤ 0x7A) ∨
     ((0xC0 ≤ c.toNat ∧ c.toNat ≤ 0xFF) ∧ c.toNat ≠ 0xD7 ∧ c.toNat ≠ 0xF7) then true
  else false

/-- Helper for `str.title`: the flag records whether the previous character was
a cased letter. -/
def pyTitleAux : Bool → List Char → List Char
  | _, [] => []
  | prevAlpha, c :: rest =>
    (if prevAlpha then pyLowerChar c else pyUpperChar c) :: pyTitleAux (pyIsAlphaChar c) rest

/-- Python `str.title`. -/
def pyTitle (s : String) : String := String.mk (pyTitleAux false s.data)

/-- Collapse each whitespace run to a single `' '` (the substitution
`re.sub(r"\s+", " ", s)` of validators.py line 7). -/
def collapseWS : Bool → List Char → List Char
  | _, [] => []
  | inSpace, c :: rest =>
    if pyIsSpace c then
      if inSpace then collapseWS true rest else ' ' :: collapseWS true rest
    else c :: collapseWS false rest

/-- Python `str.strip()` on the whitespace set of `pyIsSpace`. -/
def pyStrip (l : List Char) : List Char :=
  ((l.dropWhile pyIsSpace).reverse.dropWhile pyIsSpace).reverse

/-- `squash_spaces` (validators.py line 7). -/
def squash_spaces (s : String) : String := String.mk (pyStrip (collapseWS false s.data))

/-- Python substring containment `needle in hay`. -/
def containsSub (hay needle : List Char) : Bool :=
  hay.tails.any (fun t => needle.isPrefixOf t)

/-- `any(x in k for x in xs)` over a list of needles. -/
def containsAnySub (hay : List Char) (needles : List String) : Bool :=
  needles.any (fun n => containsSub hay n.data)

/-- Python `\w` (word character), modelled as ASCII alphanumeric, underscore,
or any non-ASCII character (the keys this repository dispatches on contain only
ASCII, accented Latin letters and Arabic letters beyond ASCII). -/
def pyIsWordChar : Option Char → Bool
  | none => false
  | some c => if c.isAlphanum ∨ c = '_' ∨ 0x80 ≤ c.toNat then true else false

/-- Does `re.search(r"\bif\b", k)` succeed?  Scans every position, tracking the
preceding character for the left word boundary. -/
def hasWordIf : Option Char → List Char → Bool
  | _, [] => false
  | prev, c :: rest =>
    (match c, rest with
     | 'i', 'f' :: rest2 =>
       !pyIsWordChar prev &&
         (match rest2 with
          | [] => true
          | d :: _ => !pyIsWordChar (some d))
     | _, _ => false) ||
    hasWordIf (some c) rest

example : hasWordIf none "body.if".data = true := by decide
example : hasWordIf none "verif".data = false := by decide
example : ar2en_digits "٠١٢a" = "012a" := by decide
example : squash_spaces "  a   b " = "a b" := by decide
example : pyTitle "commune de casa" = "Commune De Casa" := by decide

/-!
Backtracking matchers for the three `re.search` patterns of validators.py.
Each `...At` function tries to match at the start of its input (returning the
captured groups); the `search...` driver tries every start position from the
left, which is exactly `re.search`'s leftmost-match rule.  Greedy counted
repetitions are realised by trying the larger repetition count first and
backtracking through the continuation.
-/

/-- Match exactly `n` characters satisfying `p`; returns (matched, rest). -/
def takeExact (p : Char → Bool) : ℕ → List Char → Option (List Char × List Char)
  | 0, l => some ([], l)
  | _ + 1, [] => none
  | n + 1, c :: l =>
    if p c then (takeExact p n l).map (fun pr => (c :: pr.1, pr.2)) else none

/-- All remainders of `l` after consuming `k` leading whitespace characters,
for `k` from the longest possible run down to `0` (the backtracking order of a
greedy `\s*`). -/
def wsRemainders : List Char → List (List Char)
  | [] => [[]]
  | c :: l =>
    if pyIsSpace c then (wsRemainders l).map id ++ [c :: l] else [c :: l]

/-- Remainders for the optional separator `[- ]?`, greedy (with the separator
consumed first, then without). -/
def optSepRemainders : List Char → List (List Char)
  | [] => [[]]
  | c :: l => if c = '-' ∨ c = ' ' then [l, c :: l] else [c :: l]

/-- Match `([A-Z]{1,2})\s*[- ]?(\d{5,6})` at the start of `l`
(the pattern of `normalize_cin`, validators.py line 14); returns the two
captured groups. -/
def cinAt (l : List Char) : Option (List Char × List Char) :=
  [2, 1].findSome? fun n1 =>
    (takeExact pyIsUpperAZ n1 l).bind fun p1 =>
      (wsRemainders p1.2).findSome? fun r2 =>
        (optSepRemainders r2).findSome? fun r3 =>
          [6, 5].findSome? fun n2 =>
            (takeExact pyIsDigit n2 r3).map fun p2 => (p1.1, p2.1)

/-- `re.search` driver for the CIN pattern. -/
def searchCin : List Char → Option (List Char × List Char)
  | [] => cinAt []
  | c :: rest =>
    match cinAt (c :: rest) with
    | some r => some r
    | none => searchCin rest

/-- Match `(\d{1,2})/(\d{1,2})/(\d{2,4})` at the start of `l`
(the pattern of `normalize_date_ma`, validators.py line 20). -/
def dateAt (l : List Char) : Option (List Char × List Char × List Char) :=
  [2, 1].findSome? fun n1 =>
    (takeExact pyIsDigit n1 l).bind fun p1 =>
      match p1.2 with
      | '/' :: r1 =>
        [2, 1].findSome? fun n2 =>
          (takeExact pyIsDigit n2 r1).bind fun p2 =>
            match p2.2 with
            | '/' :: r2 =>
              [4, 3, 2].findSome? fun n3 =>
                (takeExact pyIsDigit n3 r2).map fun p3 => (p1.1, p2.1, p3.1)
            | _ => none
      | _ => none

/-- `re.search` driver for the date pattern. -/
def searchDate : List Char → Option (List Char × List Char × List Char)
  | [] => dateAt []
  | c :: rest =>
    match dateAt (c :: rest) with
    | some r => some r
    | none => searchDate rest

/-- Match exactly `m` repetitions of a separator (slash or hyphen) followed by
2-4 digits (greedy inner counts with backtracking); returns (matched text, rest). -/
def sepDigitsReps : ℕ → List Char → Option (List Char × List Char)
  | 0, l => some ([], l)
  | _ + 1, [] => none
  | m + 1, c :: rest =>
    if c = '/' ∨ c = '-' then
      [4, 3, 2].findSome? fun n =>
        (takeExact pyIsDigit n rest).bind fun p =>
          (sepDigitsReps m p.2).map fun pr => (c :: (p.1 ++ pr.1), pr.2)
    else none

/-- Match the receipt pattern of validators.py line 35 — 1-6 digits followed
by 1-3 groups of (slash-or-hyphen separator plus 2-4 digits) — at the start of
`l`; returns the captured group. -/
def receiptAt (l : List Char) : Option (List Char) :=
  [6, 5, 4, 3, 2, 1].findSome? fun n1 =>
    (takeExact pyIsDigit n1 l).bind fun p1 =>
      [3, 2, 1].findSome? fun m =>
        (sepDigitsReps m p1.2).map fun pr => p1.1 ++ pr.1

/-- `re.search` driver for the receipt-number pattern. -/
def searchReceipt : List Char → Option (List Char)
  | [] => receiptAt []
  | c :: rest =>
    match receiptAt (c :: rest) with
    | some r => some r
    | none => searchReceipt rest

/-- Numeric value of a decimal digit character (ASCII or Arabic-Indic),
as Python `int` reads it. -/
def charDigitVal (c : Char) : ℕ :=
  if '0' ≤ c ∧ c ≤ '9' then c.toNat - 0x30
  else if '٠' ≤ c ∧ c ≤ '٩' then c.toNat - 0x660
  else 0

/-- Python `int` on a digit string. -/
def digitsToNat (l : List Char) : ℕ := l.foldl (fun a c => 10 * a + charDigitVal c) 0

/-- Zero-padded decimal rendering, as the format specifier `{n:0wd}`. -/
def padNat (w n : ℕ) : String :=
  String.mk (List.replicate (w - (toString n).length) '0') ++ toString n

example : searchCin "xAB  12345y".data = some ("AB".data, "12345".data) := by decide
example : searchCin "ABC12345".data = some ("BC".data, "12345".data) := by decide
example : searchDate "a12/8/2025".data = some (['1', '2'], ['8'], "2025".data) := by decide
example : searchReceipt "N 2024/1234".data = some ("2024/1234".data) := by decide
example : padNat 4 25 = "0025" := by decide

/-!
The validators of src/src/postprocessing/validators.py.  Each normalizer
returns the Python dict `{"type": ..., "value": ..., "valid": ...}` as a
`NormResult`.
-/

structure NormResult where
  type : String
  value : String
  valid : Bool
deriving DecidableEq

/-- `normalize_cin` (validators.py lines 12-16). -/
def normalize_cin (s : String) : NormResult :=
  let raw := ar2en_digits (pyUpper s)
  match searchCin raw.data with
  | none => ⟨"cin", squash_spaces s, false⟩
  | some m => ⟨"cin", String.mk (m.1 ++ m.2), true⟩

/-- `normalize_date_ma` (validators.py lines 18-25).  The source first
transliterates digits, then rewrites `.` and `-` separators to `/`. -/
def normalize_date_ma (s : String) : NormResult :=
  let t := (ar2en_digits s).data.map (fun c => if c = '.' ∨ c = '-' then '/' else c)
  match searchDate t with
  | none => ⟨"date", squash_spaces s, false⟩
  | some m =>
    let d := digitsToNat m.1
    let mo := digitsToNat m.2.1
    let y0 := digitsToNat m.2.2
    let y := if y0 < 100 ∧ y0 < 50 then y0 + 2000
             else if y0 < 100 then y0 + 1900 else y0
    let ok := decide (1 ≤ d ∧ d ≤ 31 ∧ 1 ≤ mo ∧ mo ≤ 12 ∧ 1900 ≤ y ∧ y ≤ 2100)
    ⟨"date",
     if ok then padNat 4 y ++ "-" ++ padNat 2 mo ++ "-" ++ padNat 2 d
     else squash_spaces s, ok⟩

/-- `normalize_phone_ma` (validators.py lines 27-31): strip non-digits, drop a
leading `212` country code then a leading `0` trunk digit. -/
def normalize_phone_ma (s : String) : NormResult :=
  let t0 := (ar2en_digits s).data.filter pyIsDigit
  let t1 := if t0.take 3 = ['2', '1', '2'] then t0.drop 3 else t0
  let t := if t1.take 1 = ['0'] then t1.drop 1 else t1
  if t.length = 9 then ⟨"phone", "+212" ++ String.mk t, true⟩
  else ⟨"phone", squash_spaces s, false⟩

/-- `normalize_receipt_no` (validators.py lines 33-37); on success all
separators of the captured group are canonicalised to `/`. -/
def normalize_receipt_no (s : String) : NormResult :=
  let t := ar2en_digits s
  match searchReceipt t.data with
  | none => ⟨"receipt_no", squash_spaces s, false⟩
  | some g => ⟨"receipt_no", String.mk (g.map (fun c => if c = '-' then '/' else c)), true⟩

/-- `normalize_ice` (validators.py lines 39-41): digits only, valid iff
exactly 15 of them. -/
def normalize_ice (s : String) : NormResult :=
  let t := (ar2en_digits s).data.filter pyIsDigit
  ⟨"ice", String.mk t, decide (t.length = 15)⟩

/-- `normalize_if` (validators.py lines 43-45): digits only, valid iff 7 or 8
of them. -/
def normalize_if (s : String) : NormResult :=
  let t := (ar2en_digits s).data.filter pyIsDigit
  ⟨"if", String.mk t, decide (7 ≤ t.length ∧ t.length ≤ 8)⟩

/-- The gazetteer `COMMUNES_CASA` (validators.py lines 9-10).  The source keeps
these names in a Python `set`, whose iteration order is interpreter-dependent;
the embedding fixes the literal order.  None of the proved facts depend on the
order (only the returned `value` of a multi-match does). -/
def COMMUNES_CASA : List String :=
  ["Anfa", "Sidi Belyout", "Maârif", "Roches Noires", "Aïn Sebaâ", "Aïn Chock",
   "Hay Hassani", "Sidi Othmane", "Sidi Bernoussi", "Ben M\x27Sick",
   "Moulay Rachid", "Bouskoura", "Dar Bouazza", "Médiouna"]

/-- `normalize_commune` (validators.py lines 47-52): title-case, then return
the first gazetteer entry that contains the text or is contained in it
(case-insensitively); always valid. -/
def normalize_commune (s : String) : NormResult :=
  let base := pyTitle (squash_spaces s)
  match COMMUNES_CASA.find? (fun c =>
      containsSub (pyLower c).data (pyLower base).data ∨
      containsSub (pyLower base).data (pyLower c).data) with
  | some c => ⟨"commune", c, true⟩
  | none => ⟨"commune", base, true⟩

/-- `normalize_name` (validators.py line 54). -/
def normalize_name (s : String) : NormResult :=
  ⟨"name", squash_spaces s, decide (squash_spaces s ≠ "")⟩

/-- The dispatch branch of `normalize_field` (validators.py lines 56-70).
The source is one if-chain over substring tests on the lower-cased key; the
embedding splits the chain into this routing function plus the application in
`normalize_field`, preserving the test order and the exact needle lists. -/
inductive Route where
  | cin | date | phone | receipt | ice | ifTax | commune | name | text
deriving DecidableEq

def routeOf (key : String) : Route :=
  let k := (pyLower key).data
  if containsAnySub k ["cin", "cnie"] then .cin
  else if containsAnySub k ["date", "deliv", "délivr", "naissance", "dob", "تاريخ"] then .date
  else if containsAnySub k ["tel", "tél", "phone", "gsm", "هاتف"] then .phone
  else if containsAnySub k ["recep", "récép", "receipt", "وصل", "رقم الوصل"] then .receipt
  else if containsSub k "ice".data then .ice
  else if hasWordIf none k then .ifTax
  else if containsAnySub k ["commune", "arrondissement", "prefecture", "wilaya", "province"] then .commune
  else if containsAnySub k ["président", "president", "secr", "trésor", "association",
                            "intitul", "name", "nom", "اسم الجمعية"] then .name
  else .text

/-- `normalize_field` (validators.py lines 56-70). -/
def normalize_field (key text : String) : NormResult :=
  match routeOf key with
  | .cin => normalize_cin text
  | .date => normalize_date_ma text
  | .phone => normalize_phone_ma text
  | .receipt => normalize_receipt_no text
  | .ice => normalize_ice text
  | .ifTax => normalize_if text
  | .commune => normalize_commune text
  | .name => normalize_name text
  | .text => ⟨"text", squash_spaces (ar2en_digits text), decide (squash_spaces text ≠ "")⟩

example : normalize_field "body.date.fr" "12/08/2025" = ⟨"date", "2025-08-12", true⟩ := by decide
example : normalize_field "body.receipt_no" "2024/1234" = ⟨"receipt_no", "2024/1234", true⟩ := by
  decide
example : normalize_field "cin" "AB 123456" = ⟨"cin", "AB123456", true⟩ := by decide
example : normalize_field "tel" "0612345678" = ⟨"phone", "+212612345678", true⟩ := by decide
example : normalize_field "header.commune.fr" "commune de casablanca" =
    ⟨"commune", "Commune De Casablanca", true⟩ := by decide

/-!
The per-region pipeline of `TemplateExtractor.run`
(src/src/templates/template_extractor.py lines 92-166) and the region locator
`_abs_box` (lines 59-64).
-/

/-- The dict produced by `_result_to_dict` for one raw OCR token: text,
confidence and absolute bounding box (x, y, w, h). -/
structure RawTok where
  text : String
  confidence : ℚ
  bx : ℤ
  by' : ℤ
  bw : ℤ
  bh : ℤ
deriving DecidableEq

/-- The best-token fold (lines 107-118): the running state is
(best_text, best_conf, best_area), updated when `conf * area` strictly exceeds
the incumbent product; `area = max(1, w0 * h0)`. -/
def bestTok (toks : List RawTok) : String × ℚ × ℤ :=
  toks.foldl
    (fun b rd =>
      let area : ℤ := max 1 (rd.bw * rd.bh)
      if rd.confidence * (area : ℚ) > b.2.1 * (b.2.2 : ℚ) then (rd.text, rd.confidence, area)
      else b)
    ("", 0, 1)

/-- Is a token "digit-ish" (line 124): its text contains a decimal digit, a
slash, or a hyphen? -/
def isDigitish (t : String) : Bool :=
  t.data.any pyIsDigit || t.data.contains '/' || t.data.contains '-'

/-- The confidences of the digit-ish tokens, in token order (lines 121-125). -/
def digitish (toks : List RawTok) : List ℚ :=
  (toks.filter (fun rd => isDigitish rd.text)).map (fun rd => rd.confidence)

/-- The confidence attributed to the line-level candidates: when digit-ish
tokens exist, `sorted(digitish)[len(digitish) // 2]` replaces the best-token
confidence (lines 127-129). -/
def digitConf (toks : List RawTok) : ℚ :=
  let dg := digitish toks
  if dg.isEmpty then (bestTok toks).2.1
  else (dg.insertionSort (· ≤ ·)).getD (dg.length / 2) 0

/-- The joined candidate text: token texts joined with single spaces, then
stripped (line 132). -/
def joinedText (toks : List RawTok) : String :=
  String.mk (pyStrip (String.intercalate " " (toks.map (fun rd => rd.text))).data)

/-- The digits-only candidate text: the joined text with every character other
than a decimal digit, `/` or `-` removed (line 133). -/
def digitsOnlyText (toks : List RawTok) : String :=
  String.mk ((joinedText toks).data.filter (fun c => pyIsDigit c || c = '/' || c = '-'))

/-- The candidate list (lines 135-141): label, text, attributed confidence.
The digits-only candidate carries a `+0.1` bias. -/
def candidates (toks : List RawTok) : List (String × String × ℚ) :=
  let bc := digitConf toks
  (if joinedText toks ≠ "" then [("joined", joinedText toks, bc)] else []) ++
  (if digitsOnlyText toks ≠ "" then [("digits", digitsOnlyText toks, bc + 1/10)] else []) ++
  (if (bestTok toks).1 ≠ "" then [("token", (bestTok toks).1, bc)] else [])

/-- The running selection state (chosen_text, chosen_conf, chosen_norm) of
lines 143-152. -/
structure Chosen where
  text : String
  conf : ℚ
  norm : NormResult
deriving DecidableEq

/-- The initial placeholder of lines 143-145: empty, zero-confidence, invalid. -/
def initChosen : Chosen := ⟨"", 0, ⟨"text", "", false⟩⟩

/-- The selection state a candidate becomes if it wins (line 152). -/
def chosenOf (key : String) (c : String × String × ℚ) : Chosen :=
  ⟨c.2.1, c.2.2, normalize_field key c.2.1⟩

/-- Python's lexicographic tuple order on the score
`(1 if valid else 0, conf, len(text))` of line 150. -/
abbrev Score := ℕ ×ₗ ℚ ×ₗ ℕ

def chScore (ch : Chosen) : Score :=
  toLex ((if ch.norm.valid then 1 else 0 : ℕ), toLex (ch.conf, ch.text.length))

/-- One iteration of the selection loop (lines 147-152): replace the incumbent
exactly when the candidate's score tuple is strictly greater. -/
def selectStep (key : String) (ch : Chosen) (c : String × String × ℚ) : Chosen :=
  let cand := chosenOf key c
  if chScore cand > chScore ch then cand else ch

/-- The whole selection loop over the candidate list. -/
def selectField (key : String) (toks : List RawTok) : Chosen :=
  (candidates toks).foldl (selectStep key) initChosen

/-- The Arabic-character test of line 98: some character of `name` lies in the
Unicode range U+0600..U+06FF. -/
def hasArabicChar (name : String) : Bool :=
  name.data.any (fun c => if 0x600 ≤ c.toNat ∧ c.toNat ≤ 0x6FF then true else false)

/-- The language routing of `TemplateExtractor.run` (lines 92-99): the literal
name `receipt_no` first, then an explicit non-empty `rel.lang`, then the
title/ar and Arabic-character heuristics, defaulting to French. -/
def lang_key_of (sec name : String) (relLang : Option String) : String :=
  if name = "receipt_no" then "receipt"
  else
    let lk := relLang.getD ""
    if lk ≠ "" then lk
    else if (sec = "title" ∧ name = "ar") ∨ hasArabicChar name then "arabic" else "french"

/-- Python `int()` on a rational: truncation toward zero. -/
def pyTrunc (q : ℚ) : ℤ := if 0 ≤ q then ⌊q⌋ else ⌈q⌉

/-- `TemplateExtractor._abs_box` (lines 59-64): scale the relative box to
pixels, truncate, then clamp x and y into the image and force a non-empty
in-bounds extent. -/
def abs_box (H W : ℤ) (rx ry rw rh : ℚ) : ℤ × ℤ × ℤ × ℤ :=
  let x0 := pyTrunc (rx * (W : ℚ))
  let y0 := pyTrunc (ry * (H : ℚ))
  let w0 := pyTrunc (rw * (W : ℚ))
  let h0 := pyTrunc (rh * (H : ℚ))
  let x := max 0 (min x0 (W - 1))
  let y := max 0 (min y0 (H - 1))
  let w := max 1 (min w0 (W - x))
  let h := max 1 (min h0 (H - y))
  (x, y, w, h)

/-!
The overlap resolver and layout classifier of src/src/ocr/hybrid.py.
-/

/-- A token as `_dedupe_overlaps` sees it: a confidence and an optional
absolute bounding box (a token without a box is always kept). -/
structure OTok where
  confidence : ℚ
  bbox : Option (ℤ × ℤ × ℤ × ℤ)
deriving DecidableEq

/-- `HybridOCR._overlap` (lines 83-87): strict axis-aligned intersection. -/
def boxOverlap (a b : ℤ × ℤ × ℤ × ℤ) : Bool :=
  decide (a.1 < b.1 + b.2.2.1 ∧ a.1 + a.2.2.1 > b.1 ∧
          a.2.1 < b.2.1 + b.2.2.2 ∧ a.2.1 + a.2.2.2 > b.2.1)

/-- First pass of `_dedupe_overlaps` (lines 91-108): drop an Arabic token that
overlaps a French token of equal-or-higher confidence. -/
def dropArabic (a : OTok) (french : List OTok) : Bool :=
  match a.bbox with
  | none => false
  | some ab =>
    french.any fun f =>
      match f.bbox with
      | none => false
      | some fb => boxOverlap ab fb && decide (a.confidence ≤ f.confidence)

/-- Second pass of `_dedupe_overlaps` (lines 110-127): drop a French token that
overlaps a surviving Arabic token of strictly higher confidence. -/
def dropFrench (f : OTok) (keptArabic : List OTok) : Bool :=
  match f.bbox with
  | none => false
  | some fb =>
    keptArabic.any fun a =>
      match a.bbox with
      | none => false
      | some ab => boxOverlap ab fb && decide (f.confidence < a.confidence)

/-- `HybridOCR._dedupe_overlaps` (lines 89-129). -/
def dedupe_overlaps (arabic french : List OTok) : List OTok × List OTok :=
  let keepAr := arabic.filter (fun a => !dropArabic a french)
  let keepFr := french.filter (fun f => !dropFrench f keepAr)
  (keepAr, keepFr)

/-- One text contour found by `HybridOCR.analyze_layout` (lines 68-79): its
bounding rectangle together with the standard deviations of the vertical and
horizontal projections of the underlying grayscale patch.  The OpenCV
morphology, contour extraction and projection statistics are image-processing
steps outside the shallow embedding; the classification loop takes their
outputs as input data. -/
structure Contour where
  box : ℤ × ℤ × ℤ × ℤ
  vstd : ℚ
  hstd : ℚ
deriving DecidableEq

/-- The classification loop of `HybridOCR.analyze_layout` (lines 54-81): a
contour is appended to the Arabic list when its vertical-projection deviation
strictly exceeds the horizontal one, otherwise to the French list; the
function returns exactly the accumulated lists. -/
def analyze_layout (cs : List Contour) : List (ℤ × ℤ × ℤ × ℤ) × List (ℤ × ℤ × ℤ × ℤ) :=
  cs.foldl
    (fun acc c =>
      if c.vstd > c.hstd then (acc.1 ++ [c.box], acc.2) else (acc.1, acc.2 ++ [c.box]))
    ([], [])

example : digitConf [⟨"A1", 9/10, 0, 0, 1, 1⟩, ⟨"B2", 7/10, 0, 0, 1, 1⟩,
    ⟨"C", 2/10, 0, 0, 1, 1⟩, ⟨"9", 4/10, 0, 0, 1, 1⟩] = 7/10 := by
  with_unfolding_all decide
example : lang_key_of "body" "receipt_no" (some "arabic") = "receipt" := by decide
example : abs_box 100 200 (1/2) (1/2) (1/4) (1/4) = (100, 50, 50, 25) := by
  with_unfolding_all decide
example : dedupe_overlaps [⟨80, some (0, 0, 10, 10)⟩] [⟨80, some (5, 5, 10, 10)⟩] =
    ([], [⟨80, some (5, 5, 10, 10)⟩]) := by with_unfolding_all decide
example : selectField "a.cin" [⟨"-", -1, 0, 0, 1, 1⟩] = initChosen := by
  with_unfolding_all decide

/-!
The two template loaders: `TemplateExtractor.__init__` of
src/src/templates/template_extractor.py (lines 54-57) and
`TemplateExtractor._load_templates` of src/src/ocr/template.py (lines 43-79).
Both start from the value produced by `json.load`; the embedding models that
parsed value as `JVal` and the file-system read as outside the embedding.
-/

/-- A parsed JSON value.  Objects are association lists in document order
(Python dicts preserve insertion order). -/
inductive JVal where
  | num (q : ℚ)
  | str (s : String)
  | jbool (b : Bool)
  | jnull
  | arr (l : List JVal)
  | obj (l : List (String × JVal))

/-- Python `d[k]` on a JSON object: `KeyError` when the key is absent. -/
def jget (o : List (String × JVal)) (k : String) : Except String JVal :=
  match o.lookup k with
  | some v => Except.ok v
  | none => Except.error ("KeyError: " ++ k)

/-- `.items()` iteration demands a dict; anything else raises (modelled as a
`TypeError`-style failure, caught by the same handler). -/
def asObj (v : JVal) : Except String (List (String × JVal)) :=
  match v with
  | .obj l => Except.ok l
  | _ => Except.error "TypeError: not a dict"

/-- `TemplateRegion` (src/src/ocr/template.py lines 10-25).  The coordinate
fields keep the raw JSON values, exactly as the Python constructor stores
whatever the document held; the optional hints come from `.get`. -/
structure TemplateRegion where
  x : JVal
  y : JVal
  w : JVal
  h : JVal
  name : String
  sectionName : String
  lang : Option JVal
  psm : Option JVal
  oem : Option JVal
  dpi : Option JVal
  scale : Option JVal
  whitelist : Option JVal
  preserve : Option JVal

/-- `Template` (src/src/ocr/template.py lines 27-34). -/
structure Template where
  name : JVal
  name_ar : JVal
  version : JVal
  regions : List TemplateRegion
  required_fields : JVal

/-- Build the regions of one section (inner loop of lines 52-68). -/
def buildSectionRegions (sectionName : String) (fields : List (String × JVal)) :
    Except String (List TemplateRegion) :=
  fields.foldlM
    (fun acc kv => do
      let rc ← asObj kv.2
      let x ← jget rc "x"
      let y ← jget rc "y"
      let w ← jget rc "w"
      let h ← jget rc "h"
      pure (acc ++ [⟨x, y, w, h, kv.1, sectionName, rc.lookup "lang", rc.lookup "psm",
                     rc.lookup "oem", rc.lookup "dpi", rc.lookup "scale",
                     rc.lookup "whitelist", rc.lookup "preserve_spaces"⟩]))
    []

/-- Build one `Template` (loop body of lines 49-76): the regions are processed
first, then the metadata fields are read. -/
def buildTemplate (tdata : JVal) : Except String Template := do
  let td ← asObj tdata
  let regionsVal ← jget td "regions"
  let sections ← asObj regionsVal
  let regions ← sections.foldlM
    (fun acc sv => do
      let fields ← asObj sv.2
      let rs ← buildSectionRegions sv.1 fields
      pure (acc ++ rs))
    []
  let name ← jget td "name"
  let nameAr ← jget td "name_ar"
  let version ← jget td "template_version"
  let req ← jget td "required_fields"
  pure ⟨name, nameAr, version, regions, req⟩

/-- `TemplateExtractor._load_templates` (src/src/ocr/template.py lines 43-79):
any exception inside the loop is caught and re-raised as a `RuntimeError`
whose message wraps the original error. -/
def ocrLoadTemplates (j : JVal) : Except String (List (String × Template)) :=
  let run : Except String (List (String × Template)) := do
    let top ← asObj j
    top.foldlM (fun acc kv => do
      let t ← buildTemplate kv.2
      pure (acc ++ [(kv.1, t)])) []
  match run with
  | Except.ok r => Except.ok r
  | Except.error e => Except.error ("RuntimeError: Failed to load templates: " ++ e)

/-- `TemplateExtractor.__init__` (src/src/templates/template_extractor.py lines
54-57): the parsed JSON document is stored as-is; no region or coordinate
validation happens at load time. -/
def extractorLoadTemplates (j : JVal) : Except String JVal := Except.ok j

/-- A template document whose single region lacks the `x` coordinate. -/
def missingXTemplates : JVal :=
  .obj [("association_receipt",
    .obj [("regions", .obj [("body", .obj [("date",
            .obj [("y", .num (1/10)), ("w", .num (1/2)), ("h", .num (1/10))])])]),
          ("name", .str "t"), ("name_ar", .str "t"),
          ("template_version", .str "1.0"), ("required_fields", .arr [])])]

example : ocrLoadTemplates missingXTemplates =
    Except.error "RuntimeError: Failed to load templates: KeyError: x" := by rfl
example : extractorLoadTemplates missingXTemplates = Except.ok missingXTemplates := rfl

/-!
Remaining auxiliary definitions used by the theorem statements.
-/

/-- `m` is a median element of the multiset `l`: it occurs in `l`, at least
half of `l` is `≤ m`, and at least half of `l` is `≥ m`. -/
def isMedianOf (m : ℚ) (l : List ℚ) : Prop :=
  m ∈ l ∧ l.length ≤ 2 * l.countP (fun x => decide (x ≤ m)) ∧
    l.length ≤ 2 * l.countP (fun x => decide (m ≤ x))

/-- The routes `normalize_field` treats as numeric types (identity number,
date, phone, receipt number, and the two tax-identifier schemes). -/
def numericRoute (r : Route) : Bool :=
  match r with
  | .cin | .date | .phone | .receipt | .ice | .ifTax => true
  | _ => false

/-- The token list of the spec's median example: texts
`["A1", "B2", "C", "9"]` with confidences `[0.9, 0.7, 0.2, 0.4]`. -/
def medianExampleToks : List RawTok :=
  [⟨"A1", 9/10, 0, 0, 1, 1⟩, ⟨"B2", 7/10, 0, 0, 1, 1⟩,
   ⟨"C", 2/10, 0, 0, 1, 1⟩, ⟨"9", 4/10, 0, 0, 1, 1⟩]

/-- A region whose only token has the sentinel confidence `-1` and a text
consisting of a single hyphen. -/
def sentinelToks : List RawTok := [⟨"-", -1, 0, 0, 1, 1⟩]

/-- A single-template document whose single region has the coordinate object
`rc` (used to probe loader validation). -/
def oneRegionDoc (rc : List (String × JVal)) : JVal :=
  .obj [("t", .obj [("regions", .obj [("sec", .obj [("fld", .obj rc)])]),
        ("name", .str "n"), ("name_ar", .str "n"),
        ("template_version", .str "1.0"), ("required_fields", .arr [])])]

/-!
Claim theorems.
-/

/-- C5: for every image with `H ≥ 1`, `W ≥ 1` and every region definition, the
absolute box computed by `_abs_box` satisfies `x ∈ [0, W-1]`, `y ∈ [0, H-1]`,
`w ≥ 1`, `h ≥ 1`, `x + w ≤ W` and `y + h ≤ H`: the crop is always non-empty
and in-bounds, even for degenerate or edge-touching regions. -/
theorem c5_abs_box_in_bounds (H W : ℤ) (rx ry rw rh : ℚ) (hH : 1 ≤ H) (hW : 1 ≤ W) :
    0 ≤ (abs_box H W rx ry rw rh).1 ∧ (abs_box H W rx ry rw rh).1 ≤ W - 1 ∧
    0 ≤ (abs_box H W rx ry rw rh).2.1 ∧ (abs_box H W rx ry rw rh).2.1 ≤ H - 1 ∧
    1 ≤ (abs_box H W rx ry rw rh).2.2.1 ∧ 1 ≤ (abs_box H W rx ry rw rh).2.2.2 ∧
    (abs_box H W rx ry rw rh).1 + (abs_box H W rx ry rw rh).2.2.1 ≤ W ∧
    (abs_box H W rx ry rw rh).2.1 + (abs_box H W rx ry rw rh).2.2.2 ≤ H := by
  unfold abs_box
  dsimp only
  omega

/-- Witness for C5 at a concrete image size and region. -/
theorem c5_witness :
    0 ≤ (abs_box 2 3 (1/2) 0 (9/10) 1).1 ∧ (abs_box 2 3 (1/2) 0 (9/10) 1).1 ≤ 3 - 1 ∧
    0 ≤ (abs_box 2 3 (1/2) 0 (9/10) 1).2.1 ∧ (abs_box 2 3 (1/2) 0 (9/10) 1).2.1 ≤ 2 - 1 ∧
    1 ≤ (abs_box 2 3 (1/2) 0 (9/10) 1).2.2.1 ∧ 1 ≤ (abs_box 2 3 (1/2) 0 (9/10) 1).2.2.2 ∧
    (abs_box 2 3 (1/2) 0 (9/10) 1).1 + (abs_box 2 3 (1/2) 0 (9/10) 1).2.2.1 ≤ 3 ∧
    (abs_box 2 3 (1/2) 0 (9/10) 1).2.1 + (abs_box 2 3 (1/2) 0 (9/10) 1).2.2.2 ≤ 2 :=
  c5_abs_box_in_bounds 2 3 (1/2) 0 (9/10) 1 (by decide) (by decide)

/-- C2 counterexample: a region named `receipt_no` with the explicit language
`arabic` is still routed to the `receipt` profile, so the explicit
`region.lang` does not take priority over the `receipt_no` name rule. -/
theorem c2_counterexample :
    lang_key_of "body" "receipt_no" (some "arabic") = "receipt" ∧
    ("receipt" : String) ≠ "arabic" := by
  constructor
  · rfl
  · decide

/-- C2 amended: the routing priority is (a) the literal field name
`receipt_no`, then (b) an explicit non-empty `region.lang`, then (c) the
title/ar and Arabic-character heuristics, with French as the default. -/
theorem c2_routing_priority (sec name : String) (relLang : Option String) :
    (name = "receipt_no" → lang_key_of sec name relLang = "receipt") ∧
    (name ≠ "receipt_no" → ∀ l, relLang = some l → l ≠ "" →
      lang_key_of sec name relLang = l) ∧
    (name ≠ "receipt_no" → relLang.getD "" = "" →
      (((sec = "title" ∧ name = "ar") ∨ hasArabicChar name = true) →
        lang_key_of sec name relLang = "arabic") ∧
      (¬ ((sec = "title" ∧ name = "ar") ∨ hasArabicChar name = true) →
        lang_key_of sec name relLang = "french")) := by
  refine ⟨fun h => ?_, fun h l hl hne => ?_, fun h hempty => ⟨fun hy => ?_, fun hn => ?_⟩⟩
  · simp [lang_key_of, h]
  · subst hl
    simp [lang_key_of, h, hne]
  · simp only [lang_key_of, if_neg h, hempty]
    simp [hy]
  · simp only [lang_key_of, if_neg h, hempty]
    simp [hn]

/-- Witness for C2 amended: the `title`/`ar` heuristic fires when no explicit
language is set. -/
theorem c2_witness : lang_key_of "title" "ar" none = "arabic" :=
  ((c2_routing_priority "title" "ar" none).2.2 (by decide) (by decide)).1 (by decide)

/-- C6 counterexample: for an Arabic and a French token with overlapping boxes
and exactly equal confidences, the resolver keeps the French token and drops
the Arabic one — not the other way round as claimed. -/
theorem c6_counterexample :
    dedupe_overlaps [⟨80, some (0, 0, 10, 10)⟩] [⟨80, some (5, 5, 10, 10)⟩] =
      ([], [⟨80, some (5, 5, 10, 10)⟩]) ∧
    ([] : List OTok) ≠ [⟨80, some (0, 0, 10, 10)⟩] := by
  with_unfolding_all decide

/-- C6 amended: on an exact confidence tie between one Arabic and one French
token with overlapping boxes, the first (asymmetric) pass drops the Arabic
token — its confidence is equal-or-lower — and the French token then survives
the second pass: French, not Arabic, is favored on exact ties. -/
theorem c6_tie_drops_arabic (ca cf : ℚ) (ab fb : ℤ × ℤ × ℤ × ℤ)
    (hov : boxOverlap ab fb = true) (heq : ca = cf) :
    dedupe_overlaps [⟨ca, some ab⟩] [⟨cf, some fb⟩] = ([], [⟨cf, some fb⟩]) := by
  subst heq
  simp [dedupe_overlaps, dropArabic, dropFrench, hov]

/-- Witness for C6 amended at concrete overlapping boxes. -/
theorem c6_witness :
    dedupe_overlaps [⟨(80 : ℚ), some (0, 0, 10, 10)⟩] [⟨(80 : ℚ), some (5, 5, 10, 10)⟩] =
      ([], [⟨(80 : ℚ), some (5, 5, 10, 10)⟩]) :=
  c6_tie_drops_arabic 80 80 (0, 0, 10, 10) (5, 5, 10, 10) (by decide) rfl

/-- C7: two tokens with non-overlapping boxes are never mutually dropped, and
for one Arabic and one French token with overlapping boxes and confidences 80
and 60, the 60-confidence token is removed and the 80-confidence token
survives, in either language assignment. -/
theorem c7_overlap_resolution (ab fb : ℤ × ℤ × ℤ × ℤ) (ca cf : ℚ) :
    (boxOverlap ab fb = false →
      dedupe_overlaps [⟨ca, some ab⟩] [⟨cf, some fb⟩] =
        ([⟨ca, some ab⟩], [⟨cf, some fb⟩])) ∧
    (boxOverlap ab fb = true →
      dedupe_overlaps [⟨(80 : ℚ), some ab⟩] [⟨(60 : ℚ), some fb⟩] =
        ([⟨(80 : ℚ), some ab⟩], []) ∧
      dedupe_overlaps [⟨(60 : ℚ), some ab⟩] [⟨(80 : ℚ), some fb⟩] =
        ([], [⟨(80 : ℚ), some fb⟩])) := by
  constructor
  · intro h
    simp [dedupe_overlaps, dropArabic, dropFrench, h]
  · intro h
    constructor
    · have h1 : ¬ ((80 : ℚ) ≤ 60) := by norm_num
      have h2 : (60 : ℚ) < 80 := by norm_num
      simp [dedupe_overlaps, dropArabic, dropFrench, h, h1, h2]
    · have h1 : (60 : ℚ) ≤ 80 := by norm_num
      simp [dedupe_overlaps, dropArabic, dropFrench, h, h1]

/-- Witness for C7 at concrete boxes, both for the disjoint and the
overlapping case. -/
theorem c7_witness :
    dedupe_overlaps [⟨(50 : ℚ), some (0, 0, 2, 2)⟩] [⟨(70 : ℚ), some (10, 10, 2, 2)⟩] =
      ([⟨(50 : ℚ), some (0, 0, 2, 2)⟩], [⟨(70 : ℚ), some (10, 10, 2, 2)⟩]) ∧
    dedupe_overlaps [⟨(80 : ℚ), some (0, 0, 10, 10)⟩] [⟨(60 : ℚ), some (5, 5, 10, 10)⟩] =
      ([⟨(80 : ℚ), some (0, 0, 10, 10)⟩], []) :=
  ⟨(c7_overlap_resolution (0, 0, 2, 2) (10, 10, 2, 2) 50 70).1 (by decide),
   ((c7_overlap_resolution (0, 0, 10, 10) (5, 5, 10, 10) 0 0).2 (by decide)).1⟩

/-- C8 counterexample: a page whose only contour is classified French yields
an empty Arabic region list — `analyze_layout` has no full-page fallback, so
the returned Arabic list can be empty. -/
theorem c8_counterexample :
    (analyze_layout [⟨(0, 0, 5, 5), 1, 2⟩]).1 = [] ∧
    (analyze_layout [⟨(0, 0, 5, 5), 1, 2⟩]).2 = [(0, 0, 5, 5)] := by
  with_unfolding_all decide

/-- C8 amended: when no contour is classified Arabic (no contour has a
vertical-projection deviation strictly above the horizontal one), the
returned Arabic region list is empty; no full-page fallback exists. -/
theorem c8_no_arabic_fallback (cs : List Contour)
    (h : ∀ c ∈ cs, ¬ (c.hstd < c.vstd)) : (analyze_layout cs).1 = [] := by
  have key : ∀ (l : List Contour), (∀ c ∈ l, ¬ (c.hstd < c.vstd)) →
      ∀ fr : List (ℤ × ℤ × ℤ × ℤ),
      (l.foldl
        (fun acc c =>
          if c.vstd > c.hstd then (acc.1 ++ [c.box], acc.2) else (acc.1, acc.2 ++ [c.box]))
        (([] : List (ℤ × ℤ × ℤ × ℤ)), fr)).1 = [] := by
    intro l
    induction l with
    | nil => intro _ fr; rfl
    | cons c rest ih =>
      intro hl fr
      have hc : ¬ (c.hstd < c.vstd) := hl c (List.mem_cons_self c rest)
      simp only [List.foldl_cons, if_neg hc]
      exact ih (fun d hd => hl d (List.mem_cons_of_mem c hd)) _
  exact key cs h []

/-- Witness for C8 amended: two French-classified contours, no Arabic region. -/
theorem c8_witness : (analyze_layout [⟨(0, 0, 5, 5), 1, 2⟩, ⟨(9, 9, 3, 3), 2, 2⟩]).1 = [] :=
  c8_no_arabic_fallback _ (by with_unfolding_all decide)

/-- C3 counterexample: for a key routed to the commune normalizer, the empty
string normalizes to `valid = true` — the empty title-cased text is a Python
substring of every gazetteer name, so `normalize_commune` matches and (by
design) always reports validity. -/
theorem c3_counterexample : (normalize_field "commune" "").valid = true := by decide

/-- C3 amended: for every field key not routed to the commune normalizer,
normalizing the empty string yields `valid = false`; normalization is total
(modelled by these functions being total Lean functions), so failure is data,
not control flow.  Keys routed to the commune normalizer always yield
`valid = true`, even on empty input. -/
theorem c3_empty_is_invalid (key : String) (h : routeOf key ≠ Route.commune) :
    (normalize_field key "").valid = false := by
  unfold normalize_field
  cases hr : routeOf key <;>
    first
      | exact absurd hr h
      | decide

/-- Witness for C3 amended on the identity-number route. -/
theorem c3_witness : routeOf "cin" ≠ Route.commune ∧ (normalize_field "cin" "").valid = false :=
  ⟨by decide, c3_empty_is_invalid "cin" (by decide)⟩

/-- C10 counterexample: on a template document whose region lacks `x`, the
loader of src/src/templates/template_extractor.py succeeds and returns the
parsed document unvalidated (there is no load-time `ConfigError`; the missing
coordinate only surfaces later, inside `run`), while the loader of
src/src/ocr/template.py fails with a `RuntimeError`, not a `ConfigError` —
no `ConfigError` type exists in the repository. -/
theorem c10_counterexample :
    extractorLoadTemplates missingXTemplates = Except.ok missingXTemplates ∧
    ocrLoadTemplates missingXTemplates =
      Except.error "RuntimeError: Failed to load templates: KeyError: x" :=
  ⟨rfl, by rfl⟩

/-- C10 amended: for every region coordinate object lacking any of `x`, `y`,
`w`, `h`, the ocr/template.py loader fails at load time with a `RuntimeError`
wrapping the `KeyError` for the first missing coordinate in the source's read
order x, y, w, h (and returns no `Template`), while the template_extractor.py
loader performs no validation and succeeds with the document as-is.  The four
conjuncts cover every region missing at least one coordinate. -/
theorem c10_loader_validation (rc : List (String × JVal)) :
    (rc.lookup "x" = none →
      ocrLoadTemplates (oneRegionDoc rc) =
        Except.error "RuntimeError: Failed to load templates: KeyError: x" ∧
      extractorLoadTemplates (oneRegionDoc rc) = Except.ok (oneRegionDoc rc)) ∧
    (∀ vx, rc.lookup "x" = some vx → rc.lookup "y" = none →
      ocrLoadTemplates (oneRegionDoc rc) =
        Except.error "RuntimeError: Failed to load templates: KeyError: y" ∧
      extractorLoadTemplates (oneRegionDoc rc) = Except.ok (oneRegionDoc rc)) ∧
    (∀ vx vy, rc.lookup "x" = some vx → rc.lookup "y" = some vy → rc.lookup "w" = none →
      ocrLoadTemplates (oneRegionDoc rc) =
        Except.error "RuntimeError: Failed to load templates: KeyError: w" ∧
      extractorLoadTemplates (oneRegionDoc rc) = Except.ok (oneRegionDoc rc)) ∧
    (∀ vx vy vw, rc.lookup "x" = some vx → rc.lookup "y" = some vy →
      rc.lookup "w" = some vw → rc.lookup "h" = none →
      ocrLoadTemplates (oneRegionDoc rc) =
        Except.error "RuntimeError: Failed to load templates: KeyError: h" ∧
      extractorLoadTemplates (oneRegionDoc rc) = Except.ok (oneRegionDoc rc)) := by
  refine ⟨fun hx => ⟨?_, rfl⟩, fun vx hx hy => ⟨?_, rfl⟩,
          fun vx vy hx hy hw => ⟨?_, rfl⟩, fun vx vy vw hx hy hw hh => ⟨?_, rfl⟩⟩
  · simp [ocrLoadTemplates, oneRegionDoc, buildTemplate, buildSectionRegions, asObj, jget, hx,
      List.foldlM, bind, Except.bind, pure, Except.pure]
  · simp [ocrLoadTemplates, oneRegionDoc, buildTemplate, buildSectionRegions, asObj, jget,
      hx, hy, List.foldlM, bind, Except.bind, pure, Except.pure]
  · simp [ocrLoadTemplates, oneRegionDoc, buildTemplate, buildSectionRegions, asObj, jget,
      hx, hy, hw, List.foldlM, bind, Except.bind, pure, Except.pure]
  · simp [ocrLoadTemplates, oneRegionDoc, buildTemplate, buildSectionRegions, asObj, jget,
      hx, hy, hw, hh, List.foldlM, bind, Except.bind, pure, Except.pure]

/-- Witness for C10 amended: an empty coordinate object (missing `x`) and an
object with `x`, `y`, `w` present but `h` absent. -/
theorem c10_witness :
    (ocrLoadTemplates (oneRegionDoc []) =
        Except.error "RuntimeError: Failed to load templates: KeyError: x" ∧
      extractorLoadTemplates (oneRegionDoc []) = Except.ok (oneRegionDoc [])) ∧
    (ocrLoadTemplates (oneRegionDoc [("x", .num 0), ("y", .num 0), ("w", .num (1/2))]) =
        Except.error "RuntimeError: Failed to load templates: KeyError: h" ∧
      extractorLoadTemplates (oneRegionDoc [("x", .num 0), ("y", .num 0), ("w", .num (1/2))]) =
        Except.ok (oneRegionDoc [("x", .num 0), ("y", .num 0), ("w", .num (1/2))])) :=
  ⟨(c10_loader_validation []).1 rfl,
   (c10_loader_validation [("x", .num 0), ("y", .num 0), ("w", .num (1/2))]).2.2.2
     (.num 0) (.num 0) (.num (1/2)) rfl rfl rfl rfl⟩

lemma ar2enChar_spec (c : Char) :
    ar2enChar c = c ∨ c ∈ ['٠', '١', '٢', '٣', '٤', '٥', '٦', '٧', '٨', '٩'] := by
  unfold ar2enChar
  split_ifs with h0 h1 h2 h3 h4 h5 h6 h7 h8 h9 <;> simp_all

lemma ar2enChar_idem (c : Char) : ar2enChar (ar2enChar c) = ar2enChar c := by
  rcases ar2enChar_spec c with h | h
  · simp only [h]
  · fin_cases h <;> decide

lemma ar2enChar_upper_comm (c : Char) :
    ar2enChar (pyUpperChar (ar2enChar c)) = ar2enChar (pyUpperChar c) := by
  rcases ar2enChar_spec c with h | h
  · rw [h]
  · fin_cases h <;> decide

lemma ar2en_digits_idem (s : String) : ar2en_digits (ar2en_digits s) = ar2en_digits s := by
  apply congrArg String.mk
  show (s.data.map ar2enChar).map ar2enChar = s.data.map ar2enChar
  rw [List.map_map]
  exact List.map_congr_left (fun c _ => ar2enChar_idem c)

lemma ar2en_upper_ar2en (s : String) :
    ar2en_digits (pyUpper (ar2en_digits s)) = ar2en_digits (pyUpper s) := by
  apply congrArg String.mk
  show ((s.data.map ar2enChar).map pyUpperChar).map ar2enChar =
    (s.data.map pyUpperChar).map ar2enChar
  simp only [List.map_map]
  exact List.map_congr_left (fun c _ => ar2enChar_upper_comm c)

/-- Two normalizer results that agree except possibly in the not-taken failure
branch of the value are equal once the condition holds. -/
lemma normResult_ite_eq (ty v w1 w2 : String) (b : Bool) (h : b = true) :
    (⟨ty, if b then v else w1, b⟩ : NormResult) = ⟨ty, if b then v else w2, b⟩ := by
  subst h
  rfl

lemma normalize_cin_ar2en (s : String) :
    (normalize_cin (ar2en_digits s)).valid = (normalize_cin s).valid ∧
    ((normalize_cin s).valid = true → normalize_cin (ar2en_digits s) = normalize_cin s) := by
  unfold normalize_cin
  rw [ar2en_upper_ar2en]
  dsimp only
  cases searchCin (ar2en_digits (pyUpper s)).data with
  | none => exact ⟨rfl, fun h => nomatch h⟩
  | some m => exact ⟨rfl, fun _ => rfl⟩

lemma normalize_date_ar2en (s : String) :
    (normalize_date_ma (ar2en_digits s)).valid = (normalize_date_ma s).valid ∧
    ((normalize_date_ma s).valid = true →
      normalize_date_ma (ar2en_digits s) = normalize_date_ma s) := by
  unfold normalize_date_ma
  rw [ar2en_digits_idem]
  dsimp only
  cases searchDate ((ar2en_digits s).data.map (fun c => if c = '.' ∨ c = '-' then '/' else c)) with
  | none => exact ⟨rfl, fun h => nomatch h⟩
  | some m => exact ⟨rfl, fun h => normResult_ite_eq _ _ _ _ _ h⟩

/-- The success branch of the phone normalizer does not mention the raw input,
so two runs agreeing on the digit list agree whenever one is valid. -/
lemma phone_result_helper (t : List Char) (s1 s2 : String) :
    ((if t.length = 9 then (⟨"phone", "+212" ++ String.mk t, true⟩ : NormResult)
      else ⟨"phone", squash_spaces s1, false⟩).valid =
     (if t.length = 9 then (⟨"phone", "+212" ++ String.mk t, true⟩ : NormResult)
      else ⟨"phone", squash_spaces s2, false⟩).valid) ∧
    ((if t.length = 9 then (⟨"phone", "+212" ++ String.mk t, true⟩ : NormResult)
      else ⟨"phone", squash_spaces s2, false⟩).valid = true →
      (if t.length = 9 then (⟨"phone", "+212" ++ String.mk t, true⟩ : NormResult)
       else ⟨"phone", squash_spaces s1, false⟩) =
      (if t.length = 9 then (⟨"phone", "+212" ++ String.mk t, true⟩ : NormResult)
       else ⟨"phone", squash_spaces s2, false⟩)) := by
  by_cases h : t.length = 9
  · simp [h]
  · simp [h]

lemma normalize_phone_ar2en (s : String) :
    (normalize_phone_ma (ar2en_digits s)).valid = (normalize_phone_ma s).valid ∧
    ((normalize_phone_ma s).valid = true →
      normalize_phone_ma (ar2en_digits s) = normalize_phone_ma s) := by
  unfold normalize_phone_ma
  rw [ar2en_digits_idem]
  dsimp only
  exact phone_result_helper _ (ar2en_digits s) s

lemma normalize_receipt_ar2en (s : String) :
    (normalize_receipt_no (ar2en_digits s)).valid = (normalize_receipt_no s).valid ∧
    ((normalize_receipt_no s).valid = true →
      normalize_receipt_no (ar2en_digits s) = normalize_receipt_no s) := by
  unfold normalize_receipt_no
  rw [ar2en_digits_idem]
  dsimp only
  cases searchReceipt (ar2en_digits s).data with
  | none => exact ⟨rfl, fun h => nomatch h⟩
  | some g => exact ⟨rfl, fun _ => rfl⟩

lemma normalize_ice_ar2en (s : String) :
    normalize_ice (ar2en_digits s) = normalize_ice s := by
  unfold normalize_ice
  rw [ar2en_digits_idem]

lemma normalize_if_ar2en (s : String) :
    normalize_if (ar2en_digits s) = normalize_if s := by
  unfold normalize_if
  rw [ar2en_digits_idem]

/-- C9 counterexample: for the identity-number route, an Arabic-Indic digit
input does not normalize to a result equal to that of its ASCII transliteration
— on failed matches the echoed value keeps the original digit glyphs. -/
theorem c9_counterexample :
    numericRoute (routeOf "cin") = true ∧
    normalize_field "cin" "٠" ≠ normalize_field "cin" (ar2en_digits "٠") := by
  decide

/-- C9 amended: for every key routed to a numeric type (identity number, date,
phone, receipt number, 15-digit tax id, 7-8-digit tax id) and every input
string, the validity flag is invariant under transliterating Arabic-Indic
digits to ASCII, and whenever the result is valid the whole result (type,
canonical value and flag) is invariant; only the best-effort echoed value of an
invalid result can differ, keeping the original digit glyphs. -/
theorem c9_digit_invariance (key s : String) (h : numericRoute (routeOf key) = true) :
    (normalize_field key (ar2en_digits s)).valid = (normalize_field key s).valid ∧
    ((normalize_field key s).valid = true →
      normalize_field key (ar2en_digits s) = normalize_field key s) := by
  unfold normalize_field
  cases hr : routeOf key
  case cin => exact normalize_cin_ar2en s
  case date => exact normalize_date_ar2en s
  case phone => exact normalize_phone_ar2en s
  case receipt => exact normalize_receipt_ar2en s
  case ice => exact ⟨congrArg NormResult.valid (normalize_ice_ar2en s),
    fun _ => normalize_ice_ar2en s⟩
  case ifTax => exact ⟨congrArg NormResult.valid (normalize_if_ar2en s),
    fun _ => normalize_if_ar2en s⟩
  case commune => rw [hr] at h; exact absurd h (by decide)
  case name => rw [hr] at h; exact absurd h (by decide)
  case text => rw [hr] at h; exact absurd h (by decide)

/-- `sorted(l)[len(l) // 2]` is a median element of `l`: it occurs in `l`, at
least half of `l` is below-or-equal, and at least half is above-or-equal. -/
lemma insertionSort_median (l : List ℚ) (hl : l ≠ []) :
    isMedianOf ((List.insertionSort (· ≤ ·) l).getD (l.length / 2) 0) l := by
  have hperm := List.perm_insertionSort (· ≤ ·) l
  have hsort := List.sorted_insertionSort (· ≤ ·) l
  have hlen : (List.insertionSort (· ≤ ·) l).length = l.length := hperm.length_eq
  have hpos : 0 < l.length := List.length_pos.mpr hl
  have hk : l.length / 2 < (List.insertionSort (· ≤ ·) l).length := by omega
  rw [List.getD_eq_getElem _ _ hk]
  have hmem0 := List.getElem_mem hk
  generalize hm : (List.insertionSort (· ≤ ·) l)[l.length / 2] = m at hmem0
  have hdecomp : List.insertionSort (· ≤ ·) l =
      (List.insertionSort (· ≤ ·) l).take (l.length / 2) ++
        m :: (List.insertionSort (· ≤ ·) l).drop (l.length / 2 + 1) := by
    rw [← hm]
    conv_lhs => rw [← List.take_append_drop (l.length / 2) (List.insertionSort (· ≤ ·) l)]
    rw [List.drop_eq_getElem_cons hk]
  have hpieces := List.pairwise_append.mp (hdecomp ▸ hsort)
  have hall_t : ∀ x ∈ (List.insertionSort (· ≤ ·) l).take (l.length / 2), x ≤ m :=
    fun x hx => hpieces.2.2 x hx m (List.mem_cons_self _ _)
  have hall_d : ∀ y ∈ (List.insertionSort (· ≤ ·) l).drop (l.length / 2 + 1), m ≤ y :=
    (List.pairwise_cons.mp hpieces.2.1).1
  refine ⟨hperm.mem_iff.mp hmem0, ?_, ?_⟩
  · have e1 : List.countP (fun x => decide (x ≤ m)) l =
        List.countP (fun x => decide (x ≤ m)) (List.insertionSort (· ≤ ·) l) :=
      (hperm.countP_eq _).symm
    rw [e1, hdecomp, List.countP_append, List.countP_cons]
    have et : List.countP (fun x => decide (x ≤ m))
          ((List.insertionSort (· ≤ ·) l).take (l.length / 2)) =
        ((List.insertionSort (· ≤ ·) l).take (l.length / 2)).length :=
      List.countP_eq_length.mpr (fun a ha => decide_eq_true (hall_t a ha))
    rw [et, List.length_take, if_pos (show (fun x => decide (x ≤ m)) m = true by simp)]
    omega
  · have e2 : List.countP (fun x => decide (m ≤ x)) l =
        List.countP (fun x => decide (m ≤ x)) (List.insertionSort (· ≤ ·) l) :=
      (hperm.countP_eq _).symm
    rw [e2, hdecomp, List.countP_append, List.countP_cons]
    have ed : List.countP (fun x => decide (m ≤ x))
          ((List.insertionSort (· ≤ ·) l).drop (l.length / 2 + 1)) =
        ((List.insertionSort (· ≤ ·) l).drop (l.length / 2 + 1)).length :=
      List.countP_eq_length.mpr (fun a ha => decide_eq_true (hall_d a ha))
    rw [ed, List.length_drop, if_pos (show (fun x => decide (m ≤ x)) m = true by simp)]
    omega

/-- C4: whenever at least one token's text contains a digit, a slash or a
hyphen, the confidence attributed to the candidates is a median of the
confidences of exactly those digit-ish tokens; on the spec's example — texts
`["A1", "B2", "C", "9"]` with confidences `[0.9, 0.7, 0.2, 0.4]` — the
digit-bearing subset is `[0.9, 0.7, 0.4]` and the computed value is `0.7`. -/
theorem c4_median_digit_confidence (toks : List RawTok) (h : digitish toks ≠ []) :
    isMedianOf (digitConf toks) (digitish toks) ∧
    digitConf medianExampleToks = 7/10 ∧
    digitish medianExampleToks = [9/10, 7/10, 4/10] := by
  refine ⟨?_, by with_unfolding_all decide, by with_unfolding_all decide⟩
  have hne : ¬ ((digitish toks).isEmpty = true) := by
    simpa [List.isEmpty_iff] using h
  have hd : digitConf toks =
      (List.insertionSort (· ≤ ·) (digitish toks)).getD ((digitish toks).length / 2) 0 := by
    unfold digitConf
    dsimp only
    rw [if_neg hne]
  rw [hd]
  exact insertionSort_median (digitish toks) h

/-- Witness for C4 on the spec's example tokens. -/
theorem c4_witness :
    isMedianOf (digitConf medianExampleToks) (digitish medianExampleToks) ∧
    digitConf medianExampleToks = 7/10 ∧
    digitish medianExampleToks = [9/10, 7/10, 4/10] :=
  c4_median_digit_confidence medianExampleToks (by with_unfolding_all decide)

lemma chScore_selectStep_ge (key : String) (ch : Chosen) (c : String × String × ℚ) :
    chScore ch ≤ chScore (selectStep key ch c) := by
  unfold selectStep
  dsimp only
  split
  · exact le_of_lt ‹_›
  · exact le_refl _

lemma chScore_foldl_ge (key : String) (cs : List (String × String × ℚ)) (ch : Chosen) :
    chScore ch ≤ chScore (cs.foldl (selectStep key) ch) := by
  induction cs generalizing ch with
  | nil => exact le_refl _
  | cons c rest ih =>
    exact le_trans (chScore_selectStep_ge key ch c) (ih (selectStep key ch c))

lemma selectStep_cases (key : String) (ch : Chosen) (c : String × String × ℚ) :
    selectStep key ch c = chosenOf key c ∨ selectStep key ch c = ch := by
  unfold selectStep
  dsimp only
  split
  · exact Or.inl rfl
  · exact Or.inr rfl

lemma foldl_select_mem (key : String) (cs : List (String × String × ℚ)) (ch : Chosen) :
    cs.foldl (selectStep key) ch = ch ∨
      ∃ c ∈ cs, cs.foldl (selectStep key) ch = chosenOf key c := by
  induction cs generalizing ch with
  | nil => exact Or.inl rfl
  | cons c rest ih =>
    rw [List.foldl_cons]
    rcases selectStep_cases key ch c with hs | hs <;> rw [hs]
    · rcases ih (chosenOf key c) with h | ⟨d, hd, he⟩
      · exact Or.inr ⟨c, List.mem_cons_self c rest, h⟩
      · exact Or.inr ⟨d, List.mem_cons_of_mem c hd, he⟩
    · rcases ih ch with h | ⟨d, hd, he⟩
      · exact Or.inl h
      · exact Or.inr ⟨d, List.mem_cons_of_mem c hd, he⟩

lemma foldl_select_max (key : String) (cs : List (String × String × ℚ)) (ch : Chosen) :
    ∀ c ∈ cs, chScore (chosenOf key c) ≤ chScore (cs.foldl (selectStep key) ch) := by
  induction cs generalizing ch with
  | nil => exact fun c hc => absurd hc (List.not_mem_nil c)
  | cons c rest ih =>
    intro d hd
    rcases List.mem_cons.mp hd with rfl | hd2
    · refine le_trans ?_ (chScore_foldl_ge key rest (selectStep key ch d))
      unfold selectStep
      dsimp only
      split
      · exact le_refl _
      · exact le_of_not_lt ‹_›
    · exact ih (selectStep key ch c) d hd2

lemma chScore_valid_not_le (a b : Chosen) (ha : a.norm.valid = true)
    (hb : b.norm.valid = false) : ¬ (chScore a ≤ chScore b) := by
  unfold chScore
  rw [if_pos ha, if_neg (by simp [hb])]
  intro hle
  rcases (Prod.Lex.le_iff _ _).mp hle with h | ⟨h, _⟩
  · exact absurd h (by omega)
  · exact absurd h (by omega)

/-- C1 counterexample: a region whose only token is a hyphen with the sentinel
confidence `-1` under an identity-number key produces two candidates, both
invalid with negative attributed confidence; the selection loop keeps the
initial placeholder — whose score `(0, 0, 0)` beats both — so the winner is
*not* among the derived candidates and is not the candidate maximizing the
tuple. -/
theorem c1_counterexample :
    candidates sentinelToks = [("joined", "-", -1), ("digits", "-", -1 + 1/10)] ∧
    selectField "a.cin" sentinelToks = initChosen ∧
    initChosen ≠ chosenOf "a.cin" ("joined", "-", -1) ∧
    initChosen ≠ chosenOf "a.cin" ("digits", "-", -1 + 1/10) := by
  with_unfolding_all decide

/-- C1 amended: the selection result maximizes the Python tuple
`(isValid, confidence, textLength)` over the derived candidates *together with
the implicit empty, invalid, zero-confidence placeholder*: its score is
greater-or-equal to every candidate's, it is the placeholder or one of the
candidates, it is exactly the placeholder when no candidate exists, and when
any candidate is valid the result is valid (a valid candidate always beats an
invalid one of any confidence).  A candidate can lose to the placeholder only
when its attributed confidence is negative (sentinel `-1` tokens). -/
theorem c1_candidate_selection (key : String) (toks : List RawTok) :
    (∀ c ∈ candidates toks, chScore (chosenOf key c) ≤ chScore (selectField key toks)) ∧
    (selectField key toks = initChosen ∨
      ∃ c ∈ candidates toks, selectField key toks = chosenOf key c) ∧
    (candidates toks = [] → selectField key toks = initChosen) ∧
    ((∃ c ∈ candidates toks, (normalize_field key c.2.1).valid = true) →
      (selectField key toks).norm.valid = true) := by
  refine ⟨foldl_select_max key (candidates toks) initChosen,
          foldl_select_mem key (candidates toks) initChosen,
          fun h => by unfold selectField; rw [h]; rfl, ?_⟩
  rintro ⟨c, hc, hv⟩
  by_contra hic
  have hfalse : (selectField key toks).norm.valid = false := by
    cases h2 : (selectField key toks).norm.valid
    · rfl
    · exact absurd h2 hic
  have ha : (chosenOf key c).norm.valid = true := hv
  exact chScore_valid_not_le _ _ ha hfalse
    (foldl_select_max key (candidates toks) initChosen c hc)

/-- Witness for C1 amended: no tokens yield the placeholder; a legible token
under a free-text key yields a valid selection. -/
theorem c1_witness :
    selectField "x" [] = initChosen ∧
    (selectField "t" [⟨"A1", 50, 0, 0, 2, 2⟩]).norm.valid = true :=
  ⟨(c1_candidate_selection "x" []).2.2.1 (by with_unfolding_all decide),
   (c1_candidate_selection "t" [⟨"A1", 50, 0, 0, 2, 2⟩]).2.2.2
     (by with_unfolding_all decide)⟩

/-- Witness for C9 amended on the receipt route with Arabic-Indic input. -/
theorem c9_witness :
    (normalize_field "receipt" (ar2en_digits "٢٠٢٤/١٢٣٤")).valid =
      (normalize_field "receipt" "٢٠٢٤/١٢٣٤").valid ∧
    ((normalize_field "receipt" "٢٠٢٤/١٢٣٤").valid = true →
      normalize_field "receipt" (ar2en_digits "٢٠٢٤/١٢٣٤") =
        normalize_field "receipt" "٢٠٢٤/١٢٣٤") :=
  c9_digit_invariance "receipt" "٢٠٢٤/١٢٣٤" (by decide)





